import Mathlib

/-!
Shallow embedding of the UCX Gaudi backend engine
(src/plugins/ucx_gaudi/ucx_gaudi_backend.{h,cpp}) and proofs about its
connection registry, notification channel, memory registration, transfer
preparation and worker selection.

Modelling conventions: the std::unordered_map remoteConnMap is a lookup
function from agent names to optional connection records; the C++ heap used
by registerMem/deregisterMem is the set of live pointer addresses together
with the next fresh address, and a delete of a pointer that is not live (a
double free) is undefined behavior, modelled as the Option value none;
std::thread identities and std::hash are abstract Nat values and functions.
-/

namespace UcxGaudi

/-- Status codes of nixl_status_t that this plugin returns: NIXL_SUCCESS,
NIXL_ERR_NOT_FOUND and NIXL_ERR_INVALID_ARG. -/
inductive Status where
  | success
  | notFound
  | invalidArg
  deriving DecidableEq

/-- Embeds nixlUcxGaudiConnection (ucx_gaudi_backend.h lines 44-60): the remote
agent name and the gaudiOptimized flag; the endpoint vector stays empty in this
plugin and is omitted. -/
structure Connection where
  remoteAgent : String
  gaudiOptimized : Bool
  deriving DecidableEq

/-- The engine field remoteConnMap (ucx_gaudi_backend.h lines 147-148), an
std::unordered_map from agent name to a shared connection pointer, modelled as
a lookup function; a missing key is none. -/
abbrev ConnMap : Type := String → Option Connection

/-- Embeds nixlUcxGaudiEngine::loadRemoteConnInfo (ucx_gaudi_backend.cpp lines
288-300): builds a fresh connection record for the agent whose gaudiOptimized
flag copies the engine's gaudiOptimizationsEnabled, stores it in remoteConnMap
(replacing any previous entry for that agent) and returns NIXL_SUCCESS. The
remote_conn_info blob is never inspected by the source. -/
def loadRemoteConnInfo (gaudiOptimizationsEnabled : Bool) (m : ConnMap)
    (remoteAgent remoteConnInfo : String) : ConnMap × Status :=
  let conn : Connection :=
    { remoteAgent := remoteAgent, gaudiOptimized := gaudiOptimizationsEnabled }
  (fun a => if a = remoteAgent then some conn else m a, Status.success)

/-- Embeds nixlUcxGaudiEngine::connect (ucx_gaudi_backend.cpp lines 302-314):
NIXL_ERR_NOT_FOUND when remoteConnMap has no entry for the agent, otherwise
NIXL_SUCCESS; the map is not modified. -/
def connect (m : ConnMap) (remoteAgent : String) : Status :=
  match m remoteAgent with
  | none => Status.notFound
  | some _ => Status.success

/-- Embeds nixlUcxGaudiEngine::disconnect (ucx_gaudi_backend.cpp lines 316-325):
erases the agent's entry when one exists, and returns NIXL_SUCCESS in every
case. -/
def disconnect (m : ConnMap) (remoteAgent : String) : ConnMap × Status :=
  match m remoteAgent with
  | some _ => (fun a => if a = remoteAgent then none else m a, Status.success)
  | none => (m, Status.success)

/-- Embeds nixlUcxGaudiEngine::checkConn (ucx_gaudi_backend.cpp lines 452-455):
NIXL_SUCCESS when an entry exists for the agent, NIXL_ERR_NOT_FOUND otherwise. -/
def checkConn (m : ConnMap) (remoteAgent : String) : Status :=
  match m remoteAgent with
  | some _ => Status.success
  | none => Status.notFound

/-- Embeds nixlUcxGaudiEngine::endConn (ucx_gaudi_backend.cpp lines 457-459):
delegates to disconnect. -/
def endConn (m : ConnMap) (remoteAgent : String) : ConnMap × Status :=
  disconnect m remoteAgent

/-- One notification, an entry of notif_list_t: sender agent and message. -/
abbrev NotifList := List (String × String)

/-- Embeds the file-local moveNotifList (ucx_gaudi_backend.cpp lines 33-39):
when the source list is non-empty its elements are moved, in order, onto the
back of the target and the source is cleared; an empty source is untouched. -/
def moveNotifList (src tgt : NotifList) : NotifList × NotifList :=
  if 0 < src.length then ([], tgt ++ src) else (src, tgt)

/-- The part of the engine state that getNotifs touches: the notifMainList
queue (ucx_gaudi_backend.h line 142); notifMtx only serializes access and has
no sequential effect. -/
structure NotifState where
  notifMainList : NotifList
  deriving DecidableEq

/-- Embeds nixlUcxGaudiEngine::getNotifs (ucx_gaudi_backend.cpp lines 439-444):
under notifMtx, moves notifMainList onto the caller's list and returns
NIXL_SUCCESS. -/
def getNotifs (st : NotifState) (notifList : NotifList) : NotifState × NotifList × Status :=
  let moved := moveNotifList st.notifMainList notifList
  ({ notifMainList := moved.1 }, moved.2, Status.success)

/-- Transfer direction, nixl_xfer_op_t. -/
inductive XferOp where
  | read
  | write
  deriving DecidableEq

/-- One entry of a nixl_meta_dlist_t descriptor list; only its presence in the
list matters to this plugin, which never inspects descriptors. -/
structure MetaDesc where
  addr : Nat
  len : Nat
  deriving DecidableEq

/-- An opaque nixlBackendReqH transfer handle. -/
inductive BackendReqH where
  | mk
  deriving DecidableEq

/-- Embeds nixlUcxGaudiEngine::optimizeGaudiTransfer (ucx_gaudi_backend.cpp
lines 238-265): returns NIXL_SUCCESS immediately when optimizations are
disabled; otherwise the body only logs (localIsGaudi and remoteIsGaudi are
hardcoded false) and also returns NIXL_SUCCESS. -/
def optimizeGaudiTransfer (gaudiOptimizationsEnabled : Bool) (operation : XferOp)
    (localDescs remoteDescs : List MetaDesc) (remoteAgent : String) : Status :=
  if !gaudiOptimizationsEnabled then
    Status.success
  else
    Status.success

/-- Embeds nixlUcxGaudiEngine::prepXfer (ucx_gaudi_backend.cpp lines 382-394):
calls optimizeGaudiTransfer (its result is discarded), sets the handle to
nullptr (none) and returns NIXL_SUCCESS. Neither the descriptor lists nor the
connection map for the agent is validated. -/
def prepXfer (gaudiOptimizationsEnabled : Bool) (operation : XferOp)
    (localDescs remoteDescs : List MetaDesc) (remoteAgent : String) (m : ConnMap) :
    Status × Option BackendReqH :=
  let _ :=
    optimizeGaudiTransfer gaudiOptimizationsEnabled operation localDescs remoteDescs remoteAgent
  (Status.success, none)

/-- Embeds nixlUcxGaudiPrivateMetadata (ucx_gaudi_backend.h lines 65-89), the
fields registerMem fills. -/
structure PrivateMetadata where
  isGaudiMemory : Bool
  gaudiDeviceId : Nat
  deriving DecidableEq

/-- The heap state seen by registerMem/deregisterMem: the addresses of the
metadata objects currently live (allocated by new and not yet deleted), and
the next fresh address new will hand out. -/
structure MemState where
  allocated : List Nat
  next : Nat
  deriving DecidableEq

/-- Embeds nixlUcxGaudiEngine::registerMem (ucx_gaudi_backend.cpp lines
331-347): allocates a fresh nixlUcxGaudiPrivateMetadata with new
(detectGaudiMemory reports false because nixlUcxGaudiCtx::isGaudiMemory is a
stub returning false), sets out to the new pointer and returns NIXL_SUCCESS. -/
def registerMem (st : MemState) (memAddr : Nat) : MemState × Nat × Status :=
  ({ allocated := st.next :: st.allocated, next := st.next + 1 }, st.next, Status.success)

/-- Embeds nixlUcxGaudiEngine::deregisterMem (ucx_gaudi_backend.cpp lines
349-352): delete meta; return NIXL_SUCCESS. Deleting a live pointer frees it
and the call returns NIXL_SUCCESS; delete of a pointer that is not live (in
particular a second delete of the same handle) is undefined behavior in C++,
modelled as none. -/
def deregisterMem (st : MemState) (meta : Nat) : Option (MemState × Status) :=
  if meta ∈ st.allocated then
    some ({ allocated := st.allocated.erase meta, next := st.next }, Status.success)
  else
    none

/-- Embeds nixlUcxGaudiPublicMetadata (ucx_gaudi_backend.h lines 92-110): the
conn field is a shared connection pointer that defaults to null (none). -/
structure PublicMetadata where
  conn : Option Connection
  deriving DecidableEq

/-- Embeds nixlUcxGaudiEngine::loadRemoteMD (ucx_gaudi_backend.cpp lines
360-375): allocates a public metadata object whose conn pointer starts null,
fills conn from remoteConnMap when the agent is found (and leaves it null
otherwise), sets output to the new object and returns NIXL_SUCCESS. -/
def loadRemoteMD (m : ConnMap) (remoteAgent : String) : Option PublicMetadata × Status :=
  let gaudiMeta : PublicMetadata := { conn := none }
  let gaudiMeta :=
    match m remoteAgent with
    | some c => { gaudiMeta with conn := some c }
    | none => gaudiMeta
  (some gaudiMeta, Status.success)

/-- ASCII whitespace exactly as absl's ascii_isspace recognizes it. -/
def isSpace (c : Char) : Bool :=
  c = ' ' || c = '\t' || c = '\n' || c = '\x0b' || c = '\x0c' || c = '\r'

/-- Embeds absl::SimpleAtoi instantiated at size_t, as the constructor uses it
on the num_workers option: optional surrounding ASCII whitespace, an optional
leading plus sign, one or more decimal digits, and the value must fit the
64-bit unsigned range; anything else (including a minus sign) fails. -/
def simpleAtoiNat (s : String) : Option Nat :=
  let cs := s.toList.dropWhile isSpace
  let cs :=
    match cs with
    | '+' :: rest => rest
    | other => other
  let ds := cs.takeWhile Char.isDigit
  let rest := cs.dropWhile Char.isDigit
  if ds.length = 0 then
    none
  else if 2 ^ 64 ≤ ds.foldl (fun acc c => acc * 10 + (c.toNat - 48)) 0 then
    none
  else if (rest.dropWhile isSpace).length = 0 then
    some (ds.foldl (fun acc c => acc * 10 + (c.toNat - 48)) 0)
  else
    none

/-- Embeds the worker-count computation of the constructor
nixlUcxGaudiEngine::nixlUcxGaudiEngine (ucx_gaudi_backend.cpp lines 148-157):
num_workers starts at 1; when init_params and its params map are present and
hold a num_workers entry, the entry is parsed with absl::SimpleAtoi, and a
failed parse or a parsed zero falls back to 1. -/
def numWorkersOf (params : Option (String → Option String)) : Nat :=
  match params with
  | none => 1
  | some p =>
    match p ("num_workers") with
    | none => 1
    | some s =>
      match simpleAtoiNat s with
      | none => 1
      | some 0 => 1
      | some (n + 1) => n + 1

/-- Embeds the worker-construction loop of the constructor
(ucx_gaudi_backend.cpp lines 159-162): one nixlUcxWorker is emplaced per index
below the computed worker count. -/
def constructWorkers (params : Option (String → Option String)) : List Unit :=
  List.replicate (numWorkersOf params) ()

/-- Embeds nixlUcxGaudiEngine::getWorkerId (ucx_gaudi_backend.h lines 276-278):
the std::hash of the calling thread's identity, reduced modulo uws.size(); the
hash function and the thread identity are abstract. -/
def getWorkerId (hashThreadId : Nat → Nat) (uwsSize : Nat) (threadId : Nat) : Nat :=
  hashThreadId threadId % uwsSize

/-- Helper: moveNotifList always yields an empty source and the target with the
whole source appended in order (the empty-source branch coincides). -/
theorem moveNotifList_eq (src tgt : NotifList) :
    moveNotifList src tgt = ([], tgt ++ src) := by
  cases src with
  | nil => simp [moveNotifList]
  | cons a l => simp [moveNotifList]

/-- C4: one getNotifs call appends the entire queued sequence, in insertion
order, to the caller's list and leaves the engine queue empty, so a second
getNotifs with no intervening producer activity appends nothing to the
caller's list. -/
theorem getNotifs_drains_queue (st : NotifState) (lst lst2 : NotifList) :
    getNotifs st lst = ({ notifMainList := [] }, lst ++ st.notifMainList, Status.success) ∧
      getNotifs (getNotifs st lst).1 lst2 = ({ notifMainList := [] }, lst2, Status.success) := by
  constructor
  · simp [getNotifs, moveNotifList_eq]
  · simp [getNotifs, moveNotifList_eq]

/-- C5: after loadRemoteConnInfo for an agent followed by connect, checkConn on
that agent returns Success; after a subsequent disconnect it returns NotFound
(and each call in the sequence returns Success). -/
theorem connection_lifecycle (g : Bool) (m : ConnMap) (agent blob : String) :
    (loadRemoteConnInfo g m agent blob).2 = Status.success ∧
      connect (loadRemoteConnInfo g m agent blob).1 agent = Status.success ∧
      checkConn (loadRemoteConnInfo g m agent blob).1 agent = Status.success ∧
      (disconnect (loadRemoteConnInfo g m agent blob).1 agent).2 = Status.success ∧
      checkConn (disconnect (loadRemoteConnInfo g m agent blob).1 agent).1 agent =
        Status.notFound := by
  refine ⟨rfl, ?_, ?_, ?_, ?_⟩ <;>
    simp [loadRemoteConnInfo, connect, checkConn, disconnect]

/-- C6: connect for an agent for which loadRemoteConnInfo was never called (no
entry in remoteConnMap) returns NotFound. -/
theorem connect_unknown_notFound (m : ConnMap) (agent : String) (h : m agent = none) :
    connect m agent = Status.notFound := by
  simp [connect, h]

/-- C6 witness: connect on the empty connection map returns NotFound. -/
theorem connect_unknown_notFound_witness :
    connect (fun _ => none) ("peerA") = Status.notFound :=
  connect_unknown_notFound (fun _ => none) ("peerA") rfl

/-- C7: disconnect and endConn on an agent with no connection record return
Success and leave the connection map unchanged. -/
theorem disconnect_unknown_noop (m : ConnMap) (agent : String) (h : m agent = none) :
    disconnect m agent = (m, Status.success) ∧ endConn m agent = (m, Status.success) := by
  constructor <;> simp [disconnect, endConn, h]

/-- C7 witness: disconnect and endConn on the empty connection map are no-ops
returning Success. -/
theorem disconnect_unknown_noop_witness :
    disconnect (fun _ => none) ("peerB") = ((fun _ => none : ConnMap), Status.success) ∧
      endConn (fun _ => none) ("peerB") = ((fun _ => none : ConnMap), Status.success) :=
  disconnect_unknown_noop (fun _ => none) ("peerB") rfl

/-- C8: construction creates max(1, parsed num_workers) workers: with the
option absent, unparsable, or parsed to zero, exactly one worker; with a
positive parse, that count; and with no parameter map at all, one worker. -/
theorem constructWorkers_count (p : String → Option String) :
    (constructWorkers (some p)).length =
        (match p ("num_workers") with
          | none => 1
          | some s =>
            match simpleAtoiNat s with
            | none => 1
            | some n => max 1 n) ∧
      (constructWorkers none).length = 1 := by
  constructor
  · cases hp : p ("num_workers") with
    | none => simp [constructWorkers, numWorkersOf, hp]
    | some s =>
      cases hs : simpleAtoiNat s with
      | none => simp [constructWorkers, numWorkersOf, hp, hs]
      | some n =>
        cases n with
        | zero => simp [constructWorkers, numWorkersOf, hp, hs]
        | succ k =>
          simp [constructWorkers, numWorkersOf, hp, hs]
  · simp [constructWorkers, numWorkersOf]

/-- Helper: the computed worker count is never zero, whatever the init
parameters are. -/
theorem one_le_numWorkersOf (params : Option (String → Option String)) :
    1 ≤ numWorkersOf params := by
  cases params with
  | none => simp [numWorkersOf]
  | some p =>
    cases hp : p ("num_workers") with
    | none => simp [numWorkersOf, hp]
    | some s =>
      cases hs : simpleAtoiNat s with
      | none => simp [numWorkersOf, hp, hs]
      | some n =>
        cases n with
        | zero => simp [numWorkersOf, hp, hs]
        | succ k =>
          simp [numWorkersOf, hp, hs]

/-- C9: getWorkerId depends only on the calling thread's identity (two calls
with the same thread identity agree), the returned index is below the worker
count produced by construction, and with exactly one worker every thread maps
to index 0. -/
theorem getWorkerId_affinity (hashThreadId : Nat → Nat) (p : String → Option String)
    (t1 t2 : Nat) (h : t1 = t2) :
    getWorkerId hashThreadId (numWorkersOf (some p)) t1 =
        getWorkerId hashThreadId (numWorkersOf (some p)) t2 ∧
      getWorkerId hashThreadId (numWorkersOf (some p)) t1 < numWorkersOf (some p) ∧
      getWorkerId hashThreadId 1 t1 = 0 := by
  subst h
  refine ⟨rfl, ?_, ?_⟩
  · exact Nat.mod_lt _ (one_le_numWorkersOf (some p))
  · exact Nat.mod_one _

/-- C9 witness: a concrete hash function, parameter map and thread identity. -/
theorem getWorkerId_affinity_witness :
    getWorkerId (fun n => n + 3) (numWorkersOf (some (fun _ => none))) 7 =
        getWorkerId (fun n => n + 3) (numWorkersOf (some (fun _ => none))) 7 ∧
      getWorkerId (fun n => n + 3) (numWorkersOf (some (fun _ => none))) 7 <
        numWorkersOf (some (fun _ => none)) ∧
      getWorkerId (fun n => n + 3) 1 7 = 0 :=
  getWorkerId_affinity (fun n => n + 3) (fun _ => none) 7 7 rfl

/-- C10: loadRemoteMD returns Success and a non-null metadata object for every
agent, including an unknown one; the object's connection pointer equals the
remoteConnMap entry, hence stays null exactly when the agent is unknown. -/
theorem loadRemoteMD_total (m : ConnMap) (agent : String) :
    (loadRemoteMD m agent).2 = Status.success ∧
      (loadRemoteMD m agent).1 = some { conn := m agent } := by
  cases hm : m agent <;> simp [loadRemoteMD, hm]

/-- C1 counterexample: with a one-element local list and an empty remote list
(lengths differ), prepXfer returns Success, not InvalidArgument. -/
theorem prepXfer_mismatch_not_invalidArg :
    ([{ addr := 0, len := 16 }] : List MetaDesc).length ≠ ([] : List MetaDesc).length ∧
      (prepXfer true XferOp.read [{ addr := 0, len := 16 }] [] ("peerA") (fun _ => none)).1 =
        Status.success ∧
      Status.success ≠ Status.invalidArg := by
  refine ⟨by decide, rfl, by decide⟩

/-- C1 (amended): prepXfer performs no length validation; for local and remote
descriptor lists of different lengths it still returns Success and leaves the
handle null. -/
theorem prepXfer_mismatch_success (g : Bool) (op : XferOp)
    (localDescs remoteDescs : List MetaDesc) (agent : String) (m : ConnMap)
    (h : localDescs.length ≠ remoteDescs.length) :
    prepXfer g op localDescs remoteDescs agent m = (Status.success, none) := rfl

/-- C1 witness: a concrete mismatched pair of descriptor lists. -/
theorem prepXfer_mismatch_success_witness :
    prepXfer true XferOp.read [{ addr := 0, len := 16 }] [] ("peerA") (fun _ => none) =
      (Status.success, none) :=
  prepXfer_mismatch_success true XferOp.read [{ addr := 0, len := 16 }] [] ("peerA")
    (fun _ => none) (by decide)

/-- C3 counterexample: with an empty connection map (agent unconnected),
prepXfer returns Success, not NotFound. -/
theorem prepXfer_unconnected_not_notFound :
    (fun _ => none : ConnMap) ("peerC") = none ∧
      (prepXfer false XferOp.write [] [] ("peerC") (fun _ => none)).1 = Status.success ∧
      Status.success ≠ Status.notFound := by
  refine ⟨rfl, rfl, by decide⟩

/-- C3 (amended): prepXfer never consults the connection map; for an agent
with no connection record it still returns Success and leaves the handle
null. -/
theorem prepXfer_unconnected_success (g : Bool) (op : XferOp)
    (localDescs remoteDescs : List MetaDesc) (agent : String) (m : ConnMap)
    (h : m agent = none) :
    prepXfer g op localDescs remoteDescs agent m = (Status.success, none) := rfl

/-- C3 witness: a concrete unconnected agent on the empty connection map. -/
theorem prepXfer_unconnected_success_witness :
    prepXfer false XferOp.write [] [] ("peerC") (fun _ => none) =
      (Status.success, none) :=
  prepXfer_unconnected_success false XferOp.write [] [] ("peerC") (fun _ => none) rfl

/-- C2: evaluating the code at the failing input. On a fresh heap, registerMem
returns a handle with Success; the first deregisterMem on that handle frees it
and returns Success; the second deregisterMem on the same handle is a double
free — undefined behavior (none), not a returned error status as the spec
requires. -/
theorem deregisterMem_double_free :
    registerMem { allocated := [], next := 0 } 4096 =
        ({ allocated := [0], next := 1 }, 0, Status.success) ∧
      deregisterMem { allocated := [0], next := 1 } 0 =
        some ({ allocated := [], next := 1 }, Status.success) ∧
      deregisterMem { allocated := [], next := 1 } 0 = none := by
  refine ⟨rfl, by decide, by decide⟩

end UcxGaudi
